import Mathlib

/-!
# Verification of the Looker Studio report describer

A shallow embedding, in Lean 4, of the decision logic of
`src/looker_describer.py`: filename sanitisation, multi-page discovery,
page navigation, report capture orchestration, description-prompt
assembly and the batch driver.  Browser effects (element queries, inner
text reads, clicks, waits, screenshots, DOM extraction) are modelled as
explicit oracles; an exception thrown by such an effect is modelled as
an `Option` returning `none`.
-/

set_option autoImplicit false

namespace LookerDescriber

/-! ## Python character classes

`re.sub(r'\s+', ...)` and `str.strip()` on a Python 3 `str` use the
Unicode whitespace class; we enumerate it explicitly so the model's
notion of whitespace matches the source's. -/

def python_whitespace : List Char :=
  ['\t', '\n', '\x0b', '\x0c', '\r', '\x1c', '\x1d', '\x1e', '\x1f', ' ',
   '\u0085', '\u00a0', '\u1680',
   '\u2000', '\u2001', '\u2002', '\u2003', '\u2004', '\u2005', '\u2006',
   '\u2007', '\u2008', '\u2009', '\u200a',
   '\u2028', '\u2029', '\u202f', '\u205f', '\u3000']

def is_space (c : Char) : Bool :=
  python_whitespace.contains c

/-- Python `str.strip()`: drop Unicode whitespace from both ends. -/
def py_strip (s : String) : String :=
  String.mk (((s.data.dropWhile is_space).reverse.dropWhile is_space).reverse)

/-! ## `sanitize_filename` (source lines 95-100)

```python
def sanitize_filename(name: str) -> str:
    safe = re.sub(r'[<>:"/\\|?*]', '_', name)
    safe = re.sub(r'\s+', '_', safe)
    safe = safe.strip('_')
    return safe[:100]
```
-/

def unsafe_filename_chars : List Char :=
  ['<', '>', ':', '"', '/', '\\', '|', '?', '*']

/-- `re.sub(r'\s+', '_', s)` on the character list: every maximal run of
whitespace becomes a single underscore. -/
def collapse_whitespace : List Char → List Char
  | [] => []
  | [c] => if is_space c then ['_'] else [c]
  | c :: d :: cs =>
    if is_space c then
      if is_space d then collapse_whitespace (d :: cs)
      else '_' :: collapse_whitespace (d :: cs)
    else c :: collapse_whitespace (d :: cs)

/-- Python `str.strip('_')`: drop `'_'` from both ends. -/
def strip_underscores (cs : List Char) : List Char :=
  ((cs.dropWhile (fun c => c = '_')).reverse.dropWhile (fun c => c = '_')).reverse

def sanitize_filename (name : String) : String :=
  let safe1 := name.data.map (fun c => if unsafe_filename_chars.contains c then '_' else c)
  let safe2 := collapse_whitespace safe1
  let safe3 := strip_underscores safe2
  String.mk (safe3.take 100)

example : sanitize_filename "Sales/Q1" = "Sales_Q1" := by decide

example : sanitize_filename "  a  b<c  " = "a_b_c" := by decide

/-! ## Browser data model

The browser is modelled as oracles.  A DOM element carries the outcome
of the two effects the source performs on it: `innerText` is the result
of `inner_text()` (`none` models the call raising), `clickOk` tells
whether `click()` returns normally. -/

structure Element where
  innerText : Option String
  clickOk : Bool
deriving DecidableEq, Repr

/-- The locator a discovered page descriptor carries: strategies 1-2
store the selector string plus the positional index, strategy 3 stores
the element handle itself (source lines 175-179, 200-204, 217-221). -/
inductive Locator where
  | selector (sel : String) (index : Nat)
  | element (el : Element)
deriving DecidableEq, Repr

/-- One entry of the `pages` list built by `detect_report_pages`: a dict
with keys `name`, `selector`/`element`, `index`. -/
structure PageInfo where
  name : String
  locator : Locator
  index : Nat
deriving DecidableEq, Repr

/-- The query oracle: `query sel = none` models
`page.query_selector_all(sel)` raising, `some elems` the matched
elements in DOM order. -/
structure Dom where
  query : String → Option (List Element)

/-! ## `detect_report_pages` (source lines 153-227)

The source tries three strategies: three tab selectors, four sidebar
navigation selectors (all storing selector+index locators), then one
generic page-button selector (storing element handles).  Each selector
block is `try:` query; `if len > 1:` build one descriptor per element
appending to the function-wide `pages` list; `if pages: return pages`;
`except: pass`.  Because `pages` is shared across the blocks and the
`except` also covers the `inner_text()` calls of the build loop,
descriptors built before a mid-build exception survive into later
blocks and into the final `return pages`. -/

def tab_selectors : List String :=
  ["[role=\"tablist\"] [role=\"tab\"]",
   "[data-testid=\"page-tab\"]",
   ".page-tab"]

def nav_selectors : List String :=
  ["nav [role=\"button\"]",
   "[class*=\"page-nav\"] [role=\"button\"]",
   "[class*=\"page-list\"] [role=\"button\"]",
   "[data-testid=\"page-navigator\"] [role=\"button\"]"]

def generic_page_selector : String :=
  "[class*=\"page\"][role=\"button\"], [class*=\"Page\"][role=\"button\"]"

/-- All selector blocks in source order, tagged with whether the built
descriptors store an element handle (strategy 3) instead of
selector+index (strategies 1 and 2). -/
def strategy_selectors : List (String × Bool) :=
  (tab_selectors.map fun s => (s, false)) ++
    (nav_selectors.map fun s => (s, false)) ++
    [(generic_page_selector, true)]

def loc_of (sel : String) (byHandle : Bool) (i : Nat) (e : Element) : Locator :=
  if byHandle then Locator.element e else Locator.selector sel i

/-- The build loop `for i, tab in enumerate(tabs): name = await
tab.inner_text(); name = name.strip() if name else f"Page N";
pages.append(...)`.  Returns the descriptors appended before any
exception, paired with `true` iff no `inner_text()` call raised. -/
def build_pages (locOf : Nat → Element → Locator) : List Element → Nat → List PageInfo × Bool
  | [], _ => ([], true)
  | e :: es, i =>
    match e.innerText with
    | none => ([], false)
    | some t =>
      let nm := if t = "" then "Page " ++ toString (i + 1) else py_strip t
      let info : PageInfo := { name := nm, locator := locOf i e, index := i }
      let rest := build_pages locOf es (i + 1)
      (info :: rest.1, rest.2)

/-- One `try: ... except: pass` selector block, threading the shared
`pages` accumulator.  The second component is `true` iff the block
executed `return pages`. -/
def try_selector (dom : Dom) (sel : String) (byHandle : Bool)
    (pages : List PageInfo) : List PageInfo × Bool :=
  match dom.query sel with
  | none => (pages, false)
  | some elems =>
    if elems.length > 1 then
      let built := build_pages (loc_of sel byHandle) elems 0
      let pages1 := pages ++ built.1
      if built.2 then (pages1, !pages1.isEmpty) else (pages1, false)
    else (pages, false)

def detect_go (dom : Dom) : List (String × Bool) → List PageInfo → List PageInfo
  | [], pages => pages
  | sb :: rest, pages =>
    let step := try_selector dom sb.1 sb.2 pages
    if step.2 then step.1 else detect_go dom rest step.1

def detect_report_pages (dom : Dom) : List PageInfo :=
  detect_go dom strategy_selectors []

/-! ## `navigate_to_page` (source lines 230-253) -/

/-- Oracle for one invocation of `navigate_to_page`: the fresh query
result and whether the post-click settle sleep / load wait raises. -/
structure NavEnv where
  query : String → Option (List Element)
  waitThrows : Bool

/-- Outcome of the click phase of `navigate_to_page`: which element was
clicked and whether the click raised; `query_threw` and `out_of_range`
attempt no click at all. -/
inductive ClickStep where
  | ok (el : Element)
  | threw (el : Element)
  | query_threw
  | out_of_range
deriving DecidableEq, Repr

def click_step (env : NavEnv) (info : PageInfo) : ClickStep :=
  match info.locator with
  | Locator.element el => if el.clickOk then ClickStep.ok el else ClickStep.threw el
  | Locator.selector sel i =>
    match env.query sel with
    | none => ClickStep.query_threw
    | some elems =>
      if h : i < elems.length then
        let el := elems.get ⟨i, h⟩
        if el.clickOk then ClickStep.ok el else ClickStep.threw el
      else ClickStep.out_of_range

/-- `navigate_to_page` never raises: every exception during the query,
the click or the post-click wait is converted to `False`; the
out-of-range branch returns `False` without clicking. -/
def navigate_to_page (env : NavEnv) (info : PageInfo) : Bool :=
  match click_step env info with
  | ClickStep.ok _ => !env.waitThrows
  | ClickStep.threw _ => false
  | ClickStep.query_threw => false
  | ClickStep.out_of_range => false

/-! ## `capture_single_page` (source lines 256-286) and
`capture_report` (source lines 289-340)

The screenshot and HTML write effects are reflected in the returned
record's path fields; `extract_body_html` is an oracle (`htmlAt`)
indexed by the discovery position of the page being captured, and the
browser state seen by each `navigate_to_page` call is an oracle
(`navEnvAt`) indexed the same way. -/

structure PageCapture where
  page_number : Nat
  page_name : String
  screenshot_path : String
  html_path : String
  html_content : String
deriving DecidableEq, Repr

def capture_single_page (html_content : String) (output_path : String)
    (safe_name : String) (page_number : Nat) (page_name : String)
    (is_multi_page : Bool) : PageCapture :=
  let file_base :=
    if is_multi_page then safe_name ++ "_page" ++ toString page_number else safe_name
  { page_number := page_number
    page_name := page_name
    screenshot_path := output_path ++ "/" ++ file_base ++ ".png"
    html_path := output_path ++ "/" ++ file_base ++ ".html"
    html_content := html_content }

/-- The multi-page loop of `capture_report`: descriptor `i` (0-based
loop position) is skipped when `i > 0` and navigation fails, else
captured with `page_number = i + 1` and multi-page naming. -/
def capture_report_go (navEnvAt : Nat → NavEnv) (htmlAt : Nat → String)
    (output_path safe_name : String) : Nat → List PageInfo → List PageCapture
  | _, [] => []
  | i, info :: rest =>
    if 0 < i && !navigate_to_page (navEnvAt i) info then
      capture_report_go navEnvAt htmlAt output_path safe_name (i + 1) rest
    else
      capture_single_page (htmlAt i) output_path safe_name (i + 1) info.name true ::
        capture_report_go navEnvAt htmlAt output_path safe_name (i + 1) rest

def capture_report (dom : Dom) (navEnvAt : Nat → NavEnv) (htmlAt : Nat → String)
    (output_path name : String) : List PageCapture :=
  let safe_name := sanitize_filename name
  let detected_pages := detect_report_pages dom
  if detected_pages.isEmpty then
    [capture_single_page (htmlAt 0) output_path safe_name 1 "Main" false]
  else
    capture_report_go navEnvAt htmlAt output_path safe_name 0 detected_pages

/-! ## Prompt templates (source lines 47-92) and `.format`

Python's one-pass `str.format` is modelled by sequential
`String.replace` of the placeholders; the templates contain no braces
other than the placeholders, and the model is used only on the
placeholder names actually present in each template. -/

def GEMINI_PROMPT_SINGLE : String :=
"You are analyzing a Looker Studio dashboard/report. Based on the provided information, write a detailed description of this report.

**Report Name:** {name}

**Initial Description:** {description}

**Page HTML:** (provided below)

**Screenshot:** (provided as image)

Please provide a comprehensive description that includes:
1. The purpose and main function of this report
2. Key metrics, KPIs, or data points displayed
3. Any filters, date ranges, or parameters visible
4. The types of visualizations used (charts, tables, etc.)
5. Who would likely use this report and for what decisions
6. Any notable features or sections of the dashboard

Write the description in clear, professional language suitable for documentation.
"

def GEMINI_PROMPT_MULTI : String :=
"You are analyzing a multi-page Looker Studio dashboard/report. Based on the provided information, write a detailed description covering ALL pages of this report.

**Report Name:** {name}

**Initial Description:** {description}

**Number of Pages:** {page_count}

**Page Names:** {page_names}

**Page HTML:** (provided below for each page)

**Screenshots:** (provided as images for each page)

Please provide a comprehensive description that includes:
1. The overall purpose and main function of this report
2. A summary of what each page contains and its role in the overall report
3. Key metrics, KPIs, or data points displayed across all pages
4. Any filters, date ranges, or parameters visible
5. The types of visualizations used (charts, tables, etc.)
6. Who would likely use this report and for what decisions
7. How the pages relate to each other and the overall narrative/flow

Write the description in clear, professional language suitable for documentation.
"

def format_prompt_single (name description : String) : String :=
  (GEMINI_PROMPT_SINGLE.replace "{name}" name).replace "{description}" description

def format_prompt_multi (name description : String) (page_count : Nat)
    (page_names : String) : String :=
  (((GEMINI_PROMPT_MULTI.replace "{name}" name).replace
      "{description}" description).replace
      "{page_count}" (toString page_count)).replace "{page_names}" page_names

/-! ## `generate_description` (source lines 343-399)

Everything up to the `model.generate_content(content)` call is pure
string/list assembly; the generation collaborator is a black box, so
the model returns the request it would be sent.  An empty capture list
would raise `IndexError` at `captures[0]` in the source, modelled as
`none` (the caller skips empty capture lists). -/

def truncate_html (html : String) (budget : Nat) : String :=
  if html.length > budget then html.take budget ++ "\n... [HTML truncated]" else html

def html_section_for (max_html_per_page : Nat) (capture : PageCapture) : String :=
  "### Page " ++ toString capture.page_number ++ ": " ++ capture.page_name ++
    "\n```html\n" ++ truncate_html capture.html_content max_html_per_page ++ "\n```"

/-- The generation request: prompt text plus ordered screenshot images
(identified by path). -/
structure GenRequest where
  prompt : String
  images : List String
deriving DecidableEq, Repr

def generate_description_request (name initial_description : String)
    (captures : List PageCapture) : Option GenRequest :=
  if captures.length > 1 then
    let page_names := String.intercalate ", " (captures.map PageCapture.page_name)
    let prompt := format_prompt_multi name initial_description captures.length page_names
    let max_html_per_page := 50000 / captures.length
    let html_sections := captures.map (html_section_for max_html_per_page)
    let full_prompt :=
      prompt ++ "\n\n---\n\n**HTML Content:**\n\n" ++ String.intercalate "\n\n" html_sections
    some { prompt := full_prompt, images := captures.map PageCapture.screenshot_path }
  else
    match captures with
    | [] => none
    | c :: _ =>
      let prompt := format_prompt_single name initial_description
      let html_content := truncate_html c.html_content 50000
      let full_prompt :=
        prompt ++ "\n\n---\n\n**HTML Content:**\n```html\n" ++ html_content ++ "\n```"
      some { prompt := full_prompt, images := [c.screenshot_path] }

def generate_description (model : GenRequest → String) (name initial_description : String)
    (captures : List PageCapture) : Option String :=
  (generate_description_request name initial_description captures).map model

/-! ## `process_reports` (source lines 425-494)

The batch driver is modelled as the trace of externally visible actions
it performs, in order.  `vertex_project_id` is `os.getenv` of the
required identifier (`none` when unset; Python also treats the empty
string as falsy).  Per-report capture and generation outcomes are
oracles indexed by row position (`none` models the call raising, caught
by the per-report `except`). -/

def OUTPUT_DIR : String := "output"

structure ReportRow where
  name : String
  url : String
  description : String
deriving DecidableEq, Repr

inductive Event where
  | log_error (msg : String)
  | vertex_init
  | read_reports
  | run_auth_flow
  | launch_browser
  | capture (name : String)
  | generate (name : String)
  | write_description (path : String)
  | log (msg : String)
  | close_browser
deriving DecidableEq, Repr

/-- The body of the per-report loop (source lines 460-490). -/
def process_report_row (i : Nat) (row : ReportRow)
    (captureOracle : Nat → Option (List PageCapture))
    (genOracle : Nat → Option String) : List Event :=
  if row.url = "" then [Event.log "Skipping - no URL provided"]
  else
    match captureOracle i with
    | none => [Event.capture row.name, Event.log_error "capture failed"]
    | some [] => [Event.capture row.name, Event.log "No pages captured, skipping"]
    | some (_ :: _) =>
      match genOracle i with
      | none => [Event.capture row.name, Event.generate row.name,
                 Event.log_error "generation failed"]
      | some _ =>
        [Event.capture row.name, Event.generate row.name,
         Event.write_description (OUTPUT_DIR ++ "/" ++ sanitize_filename row.name ++ ".txt")]

def process_reports (vertex_project_id : Option String) (auth_state_exists : Bool)
    (rows : List ReportRow) (captureOracle : Nat → Option (List PageCapture))
    (genOracle : Nat → Option String) : List Event :=
  if vertex_project_id.getD "" = "" then
    [Event.log_error "VERTEX_PROJECT_ID not set. Check your .env file."]
  else
    Event.vertex_init :: Event.read_reports ::
      ((if auth_state_exists then [] else [Event.run_auth_flow]) ++
        Event.launch_browser ::
          ((rows.enum.map fun x => process_report_row x.1 x.2 captureOracle genOracle).flatten ++
            [Event.close_browser]))

/-! ## Lemmas about `sanitize_filename` -/

theorem mem_collapse_whitespace : ∀ (l : List Char) (c : Char),
    c ∈ collapse_whitespace l → c = '_' ∨ (c ∈ l ∧ is_space c = false)
  | [], c, h => by simp [collapse_whitespace] at h
  | [a], c, h => by
    cases ha : is_space a <;> simp [collapse_whitespace, ha] at h
    · exact Or.inr ⟨by simp [h], by rw [h]; exact ha⟩
    · exact Or.inl h
  | a :: b :: l, c, h => by
    cases ha : is_space a <;> cases hb : is_space b <;>
      simp only [collapse_whitespace, ha, hb, Bool.false_eq_true, if_false, if_true,
        List.mem_cons] at h
    · rcases h with h | h
      · exact Or.inr ⟨by simp [h], by rw [h]; exact ha⟩
      · rcases mem_collapse_whitespace (b :: l) c h with h1 | ⟨h1, h2⟩
        · exact Or.inl h1
        · exact Or.inr ⟨by simp [List.mem_cons] at h1 ⊢; tauto, h2⟩
    · rcases h with h | h
      · exact Or.inr ⟨by simp [h], by rw [h]; exact ha⟩
      · rcases mem_collapse_whitespace (b :: l) c h with h1 | ⟨h1, h2⟩
        · exact Or.inl h1
        · exact Or.inr ⟨by simp [List.mem_cons] at h1 ⊢; tauto, h2⟩
    · rcases h with h | h
      · exact Or.inl h
      · rcases mem_collapse_whitespace (b :: l) c h with h1 | ⟨h1, h2⟩
        · exact Or.inl h1
        · exact Or.inr ⟨by simp [List.mem_cons] at h1 ⊢; tauto, h2⟩
    · rcases mem_collapse_whitespace (b :: l) c h with h1 | ⟨h1, h2⟩
      · exact Or.inl h1
      · exact Or.inr ⟨by simp [List.mem_cons] at h1 ⊢; tauto, h2⟩

theorem head?_dropWhile_ne {α : Type} (p : α → Bool) (l : List α) {x : α}
    (h : (l.dropWhile p).head? = some x) : p x = false := by
  induction l with
  | nil => simp [List.dropWhile] at h
  | cons a l ih =>
    rw [List.dropWhile_cons] at h
    by_cases hp : p a = true
    · rw [if_pos hp] at h; exact ih h
    · rw [if_neg hp] at h
      simp only [List.head?_cons, Option.some.injEq] at h
      rw [h] at hp
      simpa using hp

theorem getLast?_dropWhile {α : Type} (p : α → Bool) (l : List α)
    (h : l.dropWhile p ≠ []) : (l.dropWhile p).getLast? = l.getLast? := by
  induction l with
  | nil => simp [List.dropWhile] at h
  | cons a l ih =>
    rw [List.dropWhile_cons] at h ⊢
    by_cases hp : p a = true
    · rw [if_pos hp] at h ⊢
      have hl : l ≠ [] := by
        intro e
        rw [e] at h
        simp [List.dropWhile] at h
      rw [ih h]
      cases l with
      | nil => exact absurd rfl hl
      | cons b t => simp [List.getLast?_cons_cons]
    · rw [if_neg hp]

theorem strip_underscores_subset (cs : List Char) :
    ∀ c ∈ strip_underscores cs, c ∈ cs := by
  intro c h
  unfold strip_underscores at h
  rw [List.mem_reverse] at h
  have h2 := (List.dropWhile_sublist _).mem h
  rw [List.mem_reverse] at h2
  exact (List.dropWhile_sublist _).mem h2

theorem strip_underscores_head {cs : List Char} {x : Char}
    (h : (strip_underscores cs).head? = some x) : x ≠ '_' := by
  unfold strip_underscores at h
  rw [List.head?_reverse] at h
  have hb : (((cs.dropWhile fun c => c = '_').reverse).dropWhile fun c => c = '_') ≠ [] := by
    intro e
    rw [e] at h
    simp at h
  rw [getLast?_dropWhile _ _ hb, List.getLast?_reverse] at h
  simpa using head?_dropWhile_ne _ _ h

theorem strip_underscores_getLast {cs : List Char} {x : Char}
    (h : (strip_underscores cs).getLast? = some x) : x ≠ '_' := by
  unfold strip_underscores at h
  rw [List.getLast?_reverse] at h
  simpa using head?_dropWhile_ne _ _ h

theorem sanitize_filename_data (name : String) :
    (sanitize_filename name).data =
      (strip_underscores (collapse_whitespace (name.data.map
        (fun c => if unsafe_filename_chars.contains c then '_' else c)))).take 100 := rfl

/-- C3 (amended): for every input report name, `sanitize_filename`
returns a string that contains none of the characters `<>:"/\|?*` and
no whitespace character, has no leading underscore, and has length at
most 100; it has no trailing underscore whenever its length is below
100, but the 100-character cap is applied after underscore-trimming, so
a result of exactly 100 characters may end in an underscore. -/
theorem C3_sanitize_filename_safety (name : String) :
    (sanitize_filename name).length ≤ 100 ∧
    (∀ c ∈ (sanitize_filename name).data,
        unsafe_filename_chars.contains c = false ∧ is_space c = false) ∧
    (sanitize_filename name).data.head? ≠ some '_' ∧
    ((sanitize_filename name).length < 100 →
        (sanitize_filename name).data.getLast? ≠ some '_') := by
  have hdata := sanitize_filename_data name
  set step1 := name.data.map (fun c => if unsafe_filename_chars.contains c then '_' else c)
    with hstep1
  set s3 := strip_underscores (collapse_whitespace step1) with hs3
  have hlen : (sanitize_filename name).length = (sanitize_filename name).data.length := rfl
  refine ⟨?_, ?_, ?_, ?_⟩
  · rw [hlen, hdata, List.length_take]
    exact min_le_left _ _
  · intro c hc
    rw [hdata] at hc
    have hc2 : c ∈ collapse_whitespace step1 :=
      strip_underscores_subset _ c ((List.take_sublist _ _).mem hc)
    rcases mem_collapse_whitespace _ c hc2 with h | ⟨h1, h2⟩
    · subst h
      exact ⟨by decide, by decide⟩
    · refine ⟨?_, h2⟩
      rw [hstep1] at h1
      rcases List.mem_map.mp h1 with ⟨a, _, ha⟩
      by_cases hu : unsafe_filename_chars.contains a = true
      · rw [hu, if_pos rfl] at ha
        rw [← ha]
        decide
      · rw [if_neg hu] at ha
        rw [← ha]
        simpa using hu
  · rw [hdata, List.head?_take]
    simp only [OfNat.ofNat_ne_zero, if_false]
    intro h
    exact strip_underscores_head h rfl
  · intro hlt h
    rw [hlen, hdata, List.length_take] at hlt
    have hle : s3.length ≤ 100 := by omega
    rw [hdata, List.take_of_length_le hle] at h
    exact strip_underscores_getLast h rfl

/-- Witness for `C3_sanitize_filename_safety` at a concrete report name. -/
theorem C3_witness :
    (sanitize_filename "  a  b<c  ").data.getLast? ≠ some '_' :=
  (C3_sanitize_filename_safety "  a  b<c  ").2.2.2 (by decide)

/-- A report name of 200 characters, alternating `a` and the forbidden
character `<`. -/
def c3_cex_name : String := String.mk ((List.replicate 100 ['a', '<']).flatten)

set_option maxRecDepth 4096 in
/-- C3 counterexample: the claim asserts the sanitized name never has a
trailing underscore, but on this 200-character input (whose every other
character is the forbidden `<`) the underscore-trim runs before the
100-character cap, and the capped result ends in `_`. -/
theorem C3_counterexample :
    c3_cex_name.data.count '<' = 100 ∧
    (sanitize_filename c3_cex_name).length = 100 ∧
    (sanitize_filename c3_cex_name).data.getLast? = some '_' := by decide

/-! ## C7: the page navigator contract -/

/-- C7: `navigate_to_page` is a total Boolean function — the source
catches every exception and converts it to `False`.  When the
descriptor carries a selector+index locator and the index is out of
range of the freshly re-queried element list, it returns false without
attempting any click (the click phase ends in `out_of_range`, a branch
that clicks nothing); when the re-query raises, no click is attempted
and it returns false; when the click raises, or the post-click
settle/load wait raises, it returns false; after a successful click
with a successful wait it returns true. -/
theorem C7_navigate_to_page_contract (env : NavEnv) (info : PageInfo) :
    (∀ sel i elems, info.locator = Locator.selector sel i →
        env.query sel = some elems → elems.length ≤ i →
        click_step env info = ClickStep.out_of_range ∧
          navigate_to_page env info = false) ∧
    (∀ sel i, info.locator = Locator.selector sel i → env.query sel = none →
        click_step env info = ClickStep.query_threw ∧
          navigate_to_page env info = false) ∧
    (∀ el, click_step env info = ClickStep.threw el →
        navigate_to_page env info = false) ∧
    (env.waitThrows = true → navigate_to_page env info = false) ∧
    (∀ el, click_step env info = ClickStep.ok el → env.waitThrows = false →
        navigate_to_page env info = true) := by
  refine ⟨?_, ?_, ?_, ?_, ?_⟩
  · intro sel i elems hloc hq hlen
    have hc : click_step env info = ClickStep.out_of_range := by
      simp only [click_step, hloc, hq]
      rw [dif_neg (by omega)]
    exact ⟨hc, by simp [navigate_to_page, hc]⟩
  · intro sel i hloc hq
    have hc : click_step env info = ClickStep.query_threw := by
      simp only [click_step, hloc, hq]
    exact ⟨hc, by simp [navigate_to_page, hc]⟩
  · intro el hc
    simp [navigate_to_page, hc]
  · intro hw
    unfold navigate_to_page
    split <;> simp [hw]
  · intro el hc hw
    simp [navigate_to_page, hc, hw]

def c7_env : NavEnv :=
  { query := fun _ => some [{ innerText := some "A", clickOk := true }]
    waitThrows := false }

def c7_info : PageInfo :=
  { name := "P", locator := Locator.selector "s" 3, index := 3 }

/-- Witness for `C7_navigate_to_page_contract`: a descriptor whose
index 3 is out of range of the one freshly queried element. -/
theorem C7_witness : navigate_to_page c7_env c7_info = false :=
  ((C7_navigate_to_page_contract c7_env c7_info).1 "s" 3
      [{ innerText := some "A", clickOk := true }] rfl rfl (by decide)).2

/-! ## C5: single-page capture -/

/-- C5: if `detect_report_pages` returns the empty list,
`capture_report` produces exactly one PageCapture with pageNumber 1 and
pageName "Main", captured with `is_multi_page = false`, so its files
use the non-suffixed names `{safeName}.png` and `{safeName}.html`. -/
theorem C5_single_page_report (dom : Dom) (navEnvAt : Nat → NavEnv)
    (htmlAt : Nat → String) (output_path name : String)
    (h : detect_report_pages dom = []) :
    capture_report dom navEnvAt htmlAt output_path name =
      [{ page_number := 1
         page_name := "Main"
         screenshot_path := output_path ++ "/" ++ sanitize_filename name ++ ".png"
         html_path := output_path ++ "/" ++ sanitize_filename name ++ ".html"
         html_content := htmlAt 0 }] := by
  simp [capture_report, h, capture_single_page]

/-- A DOM on which every discovery selector matches nothing. -/
def single_dom : Dom := { query := fun _ => some [] }

/-- Witness for `C5_single_page_report` on a concrete single-page DOM. -/
theorem C5_witness :
    capture_report single_dom (fun _ => c7_env) (fun _ => "<div>body</div>")
        "output" "My Report" =
      [{ page_number := 1
         page_name := "Main"
         screenshot_path := "output/My_Report.png"
         html_path := "output/My_Report.html"
         html_content := "<div>body</div>" }] := by
  rw [C5_single_page_report single_dom (fun _ => c7_env) (fun _ => "<div>body</div>")
        "output" "My Report" (by decide)]
  decide

/-! ## C8: missing configuration aborts the run -/

/-- C8: with the required `VERTEX_PROJECT_ID` identifier absent, the
batch driver logs an error and returns before any other work: its trace
is exactly the error log, containing no Vertex initialisation, no
report-list read, no auth flow, no browser launch, no capture
(navigation), no generation call and no artifact write. -/
theorem C8_missing_project_id_aborts (auth_state_exists : Bool) (rows : List ReportRow)
    (captureOracle : Nat → Option (List PageCapture)) (genOracle : Nat → Option String) :
    process_reports none auth_state_exists rows captureOracle genOracle =
        [Event.log_error "VERTEX_PROJECT_ID not set. Check your .env file."] ∧
    (∀ e ∈ process_reports none auth_state_exists rows captureOracle genOracle,
        e ≠ Event.vertex_init ∧ e ≠ Event.read_reports ∧ e ≠ Event.run_auth_flow ∧
        e ≠ Event.launch_browser ∧ (∀ s, e ≠ Event.capture s) ∧
        (∀ s, e ≠ Event.generate s) ∧ (∀ s, e ≠ Event.write_description s)) := by
  refine ⟨rfl, ?_⟩
  intro e he
  simp [process_reports] at he
  subst he
  exact ⟨by simp, by simp, by simp, by simp, fun s => by simp, fun s => by simp,
    fun s => by simp⟩

/-- Witness for `C8_missing_project_id_aborts` at a concrete report
list. -/
theorem C8_witness :
    process_reports none true [{ name := "R", url := "https://x", description := "d" }]
        (fun _ => some []) (fun _ => some "text") =
      [Event.log_error "VERTEX_PROJECT_ID not set. Check your .env file."] ∧
    Event.log_error "VERTEX_PROJECT_ID not set. Check your .env file." ≠
      Event.launch_browser := by
  have h := C8_missing_project_id_aborts true
    [{ name := "R", url := "https://x", description := "d" }]
    (fun _ => some []) (fun _ => some "text")
  exact ⟨h.1, ((h.2 _ (by rw [h.1]; exact List.mem_singleton.mpr rfl)).2.2.2.1)⟩

/-! ## C1: the multi-page capture loop -/

theorem capture_report_go_eq (navEnvAt : Nat → NavEnv) (htmlAt : Nat → String)
    (output_path safe_name : String) (ps : List PageInfo) :
    ∀ i : Nat,
      capture_report_go navEnvAt htmlAt output_path safe_name i ps =
        ((ps.enumFrom i).filter fun x =>
            x.1 == 0 || navigate_to_page (navEnvAt x.1) x.2).map
          fun x =>
            capture_single_page (htmlAt x.1) output_path safe_name (x.1 + 1) x.2.name true := by
  induction ps with
  | nil => intro i; rfl
  | cons info rest ih =>
    intro i
    have henum : List.enumFrom i (info :: rest) = (i, info) :: List.enumFrom (i + 1) rest := rfl
    rw [capture_report_go, henum, List.filter_cons]
    cases hnav : navigate_to_page (navEnvAt i) info
    · cases i with
      | zero => simp [ih, hnav]
      | succ n => simp [ih, hnav]
    · cases i with
      | zero => simp [ih, hnav]
      | succ n => simp [ih, hnav]

theorem length_filter_ne_range (N k : Nat) (h : k < N) :
    ((List.range N).filter fun i => i != k).length = N - 1 := by
  induction N with
  | zero => omega
  | succ n ih =>
    rw [List.range_succ, List.filter_append]
    by_cases hk : k = n
    · subst hk
      have h1 : (List.range k).filter (fun i => i != k) = List.range k :=
        List.filter_eq_self.mpr fun a ha => by
          have := List.mem_range.mp ha
          simp
          omega
      simp [h1]
    · have hkn : k < n := by omega
      have h2 : ([n].filter fun i => i != k) = [n] := by simp; omega
      rw [List.length_append, h2, ih hkn]
      simp
      omega

/-- C1: for a report where discovery returns `N > 1` descriptors,
`capture_report` produces one PageCapture per descriptor whose
navigation succeeded — the first descriptor is captured without any
navigation step — in discovery order, each numbered with its 1-based
discovery position and named `{safeName}_page{pageNumber}`; if all
navigations succeed it returns exactly `N` records numbered `1..N`,
and if navigation fails on exactly one non-first descriptor it returns
`N - 1` records retaining their discovery-order page numbers (the gap
is not compacted). -/
theorem C1_multi_page_capture (dom : Dom) (navEnvAt : Nat → NavEnv) (htmlAt : Nat → String)
    (output_path name : String) (ps : List PageInfo)
    (hps : detect_report_pages dom = ps) (hN : 1 < ps.length) :
    capture_report dom navEnvAt htmlAt output_path name =
      ((ps.enum.filter fun x => x.1 == 0 || navigate_to_page (navEnvAt x.1) x.2).map
        fun x =>
          capture_single_page (htmlAt x.1) output_path (sanitize_filename name)
            (x.1 + 1) x.2.name true) ∧
    (∀ c ∈ capture_report dom navEnvAt htmlAt output_path name,
        c.screenshot_path =
          output_path ++ "/" ++ (sanitize_filename name ++ "_page" ++
            toString c.page_number) ++ ".png" ∧
        c.html_path =
          output_path ++ "/" ++ (sanitize_filename name ++ "_page" ++
            toString c.page_number) ++ ".html") ∧
    ((∀ x ∈ ps.enum, 0 < x.1 → navigate_to_page (navEnvAt x.1) x.2 = true) →
        (capture_report dom navEnvAt htmlAt output_path name).length = ps.length ∧
        (capture_report dom navEnvAt htmlAt output_path name).map PageCapture.page_number =
          (List.range ps.length).map (· + 1)) ∧
    (∀ k, 0 < k → k < ps.length →
        (∀ x ∈ ps.enum, 0 < x.1 → x.1 ≠ k → navigate_to_page (navEnvAt x.1) x.2 = true) →
        (∀ x ∈ ps.enum, x.1 = k → navigate_to_page (navEnvAt x.1) x.2 = false) →
        (capture_report dom navEnvAt htmlAt output_path name).length = ps.length - 1 ∧
        (capture_report dom navEnvAt htmlAt output_path name).map PageCapture.page_number =
          ((List.range ps.length).filter fun i => i != k).map (· + 1)) := by
  have hne : ps.isEmpty = false := by
    cases ps with
    | nil => simp at hN
    | cons a t => rfl
  have hmain : capture_report dom navEnvAt htmlAt output_path name =
      ((ps.enum.filter fun x => x.1 == 0 || navigate_to_page (navEnvAt x.1) x.2).map
        fun x =>
          capture_single_page (htmlAt x.1) output_path (sanitize_filename name)
            (x.1 + 1) x.2.name true) := by
    simp only [capture_report, hps, hne, Bool.false_eq_true, if_false]
    exact capture_report_go_eq navEnvAt htmlAt output_path (sanitize_filename name) ps 0
  refine ⟨hmain, ?_, ?_, ?_⟩
  · intro c hc
    rw [hmain] at hc
    rcases List.mem_map.mp hc with ⟨x, _, rfl⟩
    constructor <;> simp [capture_single_page, String.append_assoc]
  · intro hall
    have hfilter : (ps.enum.filter fun x =>
        x.1 == 0 || navigate_to_page (navEnvAt x.1) x.2) = ps.enum :=
      List.filter_eq_self.mpr fun x hx => by
        rcases Nat.eq_zero_or_pos x.1 with h0 | h0
        · simp [h0]
        · simp [hall x hx h0]
    rw [hmain, hfilter]
    constructor
    · simp [List.enum_length]
    · rw [List.map_map]
      have : (PageCapture.page_number ∘ fun x : Nat × PageInfo =>
          capture_single_page (htmlAt x.1) output_path (sanitize_filename name)
            (x.1 + 1) x.2.name true) = fun x => x.1 + 1 := by
        funext x
        rfl
      rw [this]
      have h2 : (fun x : Nat × PageInfo => x.1 + 1) = (fun n => n + 1) ∘ Prod.fst := rfl
      rw [h2, ← List.map_map, List.enum_map_fst]
  · intro k hk0 hkN hsucc hfail
    have hfilter : (ps.enum.filter fun x =>
        x.1 == 0 || navigate_to_page (navEnvAt x.1) x.2) =
        ps.enum.filter fun x => x.1 != k := by
      refine List.filter_congr fun x hx => ?_
      rcases Nat.eq_zero_or_pos x.1 with h0 | h0
      · simp [h0]
        omega
      · by_cases hxk : x.1 = k
        · rw [hfail x hx hxk, hxk]
          simp
          omega
        · simp [hsucc x hx h0 hxk, hxk]
    have hfst : (ps.enum.filter fun x => x.1 != k).map Prod.fst =
        (List.range ps.length).filter fun i => i != k := by
      have hcomm := List.filter_map (p := fun i : Nat => i != k) (f := Prod.fst) (l := ps.enum)
      rw [List.enum_map_fst] at hcomm
      have hfun : (fun x : Nat × PageInfo => x.1 != k) =
          ((fun i : Nat => i != k) ∘ Prod.fst) := rfl
      rw [hfun, hcomm]
    rw [hmain, hfilter]
    constructor
    · rw [List.length_map]
      have : (ps.enum.filter fun x => x.1 != k).length =
          ((ps.enum.filter fun x => x.1 != k).map Prod.fst).length := by
        rw [List.length_map]
      rw [this, hfst, length_filter_ne_range _ _ hkN]
    · rw [List.map_map]
      have : (PageCapture.page_number ∘ fun x : Nat × PageInfo =>
          capture_single_page (htmlAt x.1) output_path (sanitize_filename name)
            (x.1 + 1) x.2.name true) = (fun n => n + 1) ∘ Prod.fst := by
        funext x
        rfl
      rw [this, ← List.map_map, hfst]

def c1_el (s : String) : Element := { innerText := some s, clickOk := true }

/-- A report whose tab list holds three clean tabs. -/
def c1_dom : Dom :=
  { query := fun sel =>
      if sel = "[role=\"tablist\"] [role=\"tab\"]" then
        some [c1_el "One", c1_el "Two", c1_el "Three"]
      else some [] }

/-- Navigation oracle for the `c1_dom` scenario: at loop position 1 the
fresh query comes back empty (index out of range, navigation fails), at
every other position the full tab list is present and clicking
succeeds. -/
def c1_navEnvAt (i : Nat) : NavEnv :=
  { query := fun sel =>
      if sel = "[role=\"tablist\"] [role=\"tab\"]" then
        some (if i = 1 then [] else [c1_el "One", c1_el "Two", c1_el "Three"])
      else some []
    waitThrows := false }

/-- Witness for `C1_multi_page_capture`: three discovered pages with
navigation failing exactly at discovery position 1 yield the two
captures numbered 1 and 3 — the gap is kept. -/
theorem C1_witness :
    (capture_report c1_dom c1_navEnvAt (fun _ => "html") "output" "R").map
        PageCapture.page_number = [1, 3] := by
  have h := (C1_multi_page_capture c1_dom c1_navEnvAt (fun _ => "html") "output" "R"
      (detect_report_pages c1_dom) rfl (by decide)).2.2.2 1 (by decide) (by decide)
      (by decide) (by decide)
  rw [h.2]
  decide

/-! ## C2: the multi-page HTML budget -/

/-- C2: for `K > 1` captures the per-page HTML budget is `50000 / K`
(integer division); each capture contributes, inside its header-labelled
section of the assembled prompt, exactly the budget-length prefix of its
`html_content` followed by the fixed marker `"\n... [HTML truncated]"`
when its length exceeds the budget, and its `html_content` unchanged
otherwise; for `K = 3` the budget is 16666, so contents shorter than
16666 characters are untouched and contents longer than 16666 are each
independently cut to the 16666-character prefix plus the marker. -/
theorem C2_html_budget (name initial_description : String) (captures : List PageCapture)
    (hK : 1 < captures.length) :
    generate_description_request name initial_description captures =
      some { prompt := format_prompt_multi name initial_description captures.length
                 (String.intercalate ", " (captures.map PageCapture.page_name)) ++
               "\n\n---\n\n**HTML Content:**\n\n" ++
               String.intercalate "\n\n"
                 (captures.map (html_section_for (50000 / captures.length)))
             images := captures.map PageCapture.screenshot_path } ∧
    (∀ c ∈ captures,
        (50000 / captures.length < c.html_content.length →
          truncate_html c.html_content (50000 / captures.length) =
            c.html_content.take (50000 / captures.length) ++ "\n... [HTML truncated]") ∧
        (c.html_content.length ≤ 50000 / captures.length →
          truncate_html c.html_content (50000 / captures.length) = c.html_content)) ∧
    (captures.length = 3 →
        50000 / captures.length = 16666 ∧
        ∀ c ∈ captures,
          (c.html_content.length < 16666 →
            html_section_for (50000 / captures.length) c =
              "### Page " ++ toString c.page_number ++ ": " ++ c.page_name ++
                "\n```html\n" ++ c.html_content ++ "\n```") ∧
          (16666 < c.html_content.length →
            html_section_for (50000 / captures.length) c =
              "### Page " ++ toString c.page_number ++ ": " ++ c.page_name ++
                "\n```html\n" ++
                (c.html_content.take 16666 ++ "\n... [HTML truncated]") ++ "\n```")) := by
  refine ⟨?_, ?_, ?_⟩
  · simp [generate_description_request, hK]
  · intro c _
    constructor
    · intro h
      rw [truncate_html, if_pos (by omega)]
    · intro h
      rw [truncate_html, if_neg (by omega)]
  · intro h3
    have hb : 50000 / captures.length = 16666 := by rw [h3]
    refine ⟨hb, ?_⟩
    intro c _
    constructor
    · intro h
      rw [html_section_for, hb, truncate_html, if_neg (by omega)]
    · intro h
      rw [html_section_for, hb, truncate_html, if_pos (by omega)]

def c2_cap (n : Nat) (s : String) : PageCapture :=
  { page_number := n, page_name := "P" ++ toString n,
    screenshot_path := "p" ++ toString n ++ ".png",
    html_path := "p" ++ toString n ++ ".html", html_content := s }

/-- Witness for `C2_html_budget`: three short captures, budget 16666,
page 1's section carries its HTML untouched. -/
theorem C2_witness :
    html_section_for (50000 / ([c2_cap 1 "aa", c2_cap 2 "bb", c2_cap 3 "cc"].length))
        (c2_cap 1 "aa") =
      "### Page " ++ toString (c2_cap 1 "aa").page_number ++ ": " ++
        (c2_cap 1 "aa").page_name ++ "\n```html\n" ++ (c2_cap 1 "aa").html_content ++
        "\n```" :=
  (((C2_html_budget "N" "D" [c2_cap 1 "aa", c2_cap 2 "bb", c2_cap 3 "cc"]
      (by decide)).2.2 rfl).2 (c2_cap 1 "aa") (by decide)).1 (by decide)

/-! ## C10: a single surviving capture takes the single-page path -/

/-- C10: `generate_description` selects its assembly path solely by
whether the surviving capture list has more than one element.  Any
one-element capture list is assembled with the single-page prompt
template and the full 50000-character budget; in particular, for a
multi-page report (N > 1 discovered descriptors) in which navigation
fails for every non-first descriptor, `capture_report` returns exactly
the first page's capture, whose artifact files keep the multi-page
`_page1` names assigned at capture time, and that single capture is
then assembled via the single-page path. -/
theorem C10_single_survivor_path (dom : Dom) (navEnvAt : Nat → NavEnv)
    (htmlAt : Nat → String) (output_path name initial_description : String)
    (ps : List PageInfo) (hps : detect_report_pages dom = ps) (hN : 1 < ps.length)
    (hfail : ∀ x ∈ ps.enum, 0 < x.1 → navigate_to_page (navEnvAt x.1) x.2 = false) :
    (∀ c : PageCapture,
        generate_description_request name initial_description [c] =
          some { prompt := format_prompt_single name initial_description ++
                     "\n\n---\n\n**HTML Content:**\n```html\n" ++
                     truncate_html c.html_content 50000 ++ "\n```"
                 images := [c.screenshot_path] }) ∧
    (∃ hd : PageInfo, ps.head? = some hd ∧
        capture_report dom navEnvAt htmlAt output_path name =
          [capture_single_page (htmlAt 0) output_path (sanitize_filename name) 1
            hd.name true] ∧
        (capture_single_page (htmlAt 0) output_path (sanitize_filename name) 1
            hd.name true).screenshot_path =
          output_path ++ "/" ++ (sanitize_filename name ++ "_page1") ++ ".png") := by
  constructor
  · intro c
    rfl
  · have hne : ps.isEmpty = false := by
      cases ps with
      | nil => simp at hN
      | cons a t => rfl
    cases ps with
    | nil => simp at hN
    | cons hd tl =>
      refine ⟨hd, rfl, ?_, ?_⟩
      · have hcr : capture_report dom navEnvAt htmlAt output_path name =
            (((hd :: tl).enum.filter fun x =>
                x.1 == 0 || navigate_to_page (navEnvAt x.1) x.2).map fun x =>
              capture_single_page (htmlAt x.1) output_path (sanitize_filename name)
                (x.1 + 1) x.2.name true) := by
          simp only [capture_report, hps, hne, Bool.false_eq_true, if_false]
          exact capture_report_go_eq navEnvAt htmlAt output_path (sanitize_filename name) _ 0
        rw [hcr]
        have henum : (hd :: tl).enum = (0, hd) :: List.enumFrom 1 tl := rfl
        rw [henum, List.filter_cons]
        have hrest : (List.enumFrom 1 tl).filter (fun x =>
            x.1 == 0 || navigate_to_page (navEnvAt x.1) x.2) = [] := by
          refine List.filter_eq_nil_iff.mpr fun x hx => ?_
          have hx1 : 1 ≤ x.1 := by
            rcases x with ⟨i, info⟩
            exact (List.mem_enumFrom hx).1
          have hmem : x ∈ (hd :: tl).enum := by
            rw [henum]
            exact List.mem_cons_of_mem _ hx
          have hnav := hfail x hmem (by omega)
          simp [hnav]
          omega
        rw [hrest]
        simp
      · have h1 : ("_page" : String) ++ toString 1 = "_page1" := by decide
        simp [capture_single_page, ← h1, String.append_assoc]

/-- The C10 scenario DOM: two tabs, and navigation always re-queries an
empty list, so every non-first navigation fails. -/
def c10_dom : Dom :=
  { query := fun sel =>
      if sel = "[role=\"tablist\"] [role=\"tab\"]" then some [c1_el "One", c1_el "Two"]
      else some [] }

def c10_navEnvAt (_ : Nat) : NavEnv :=
  { query := fun _ => some [], waitThrows := false }

/-- Witness for `C10_single_survivor_path`: the one surviving capture
of the two-page report is assembled via the single-page path with
budget 50000, and its image is its `_page1` screenshot. -/
theorem C10_witness :
    generate_description_request "R" "d"
        [capture_single_page "h" "o" (sanitize_filename "R") 1 "One" true] =
      some { prompt := format_prompt_single "R" "d" ++
                 "\n\n---\n\n**HTML Content:**\n```html\n" ++
                 truncate_html "h" 50000 ++ "\n```"
             images := ["o/R_page1.png"] } := by
  have h := (C10_single_survivor_path c10_dom c10_navEnvAt (fun _ => "h") "o" "R" "d"
      (detect_report_pages c10_dom) rfl (by decide) (by decide)).1
      (capture_single_page "h" "o" (sanitize_filename "R") 1 "One" true)
  rw [h]
  rfl

/-! ## C6: descriptor naming in the build loop -/

theorem build_pages_clean (locOf : Nat → Element → Locator) :
    ∀ (elems : List Element) (n : Nat),
      (∀ e ∈ elems, e.innerText.isSome) →
      build_pages locOf elems n =
        ((elems.enumFrom n).map fun x =>
          { name := if x.2.innerText.getD "" = "" then "Page " ++ toString (x.1 + 1)
                    else py_strip (x.2.innerText.getD "")
            locator := locOf x.1 x.2
            index := x.1 }, true)
  | [], _, _ => rfl
  | e :: es, n, h => by
    rcases hsome : e.innerText with _ | t
    · exact absurd (h e (by simp)) (by simp [hsome])
    · have ih := build_pages_clean locOf es (n + 1)
        (fun x hx => h x (List.mem_cons_of_mem _ hx))
      have henum : List.enumFrom n (e :: es) = (n, e) :: List.enumFrom (n + 1) es := rfl
      simp [build_pages, hsome, ih, henum]

theorem build_pages_ok (locOf : Nat → Element → Locator) :
    ∀ (elems : List Element) (n : Nat),
      (build_pages locOf elems n).2 = true → ∀ e ∈ elems, e.innerText.isSome
  | [], _, _ => by simp
  | e :: es, n, h => by
    rcases hsome : e.innerText with _ | t
    · rw [build_pages, hsome] at h
      simp at h
    · intro x hx
      rcases List.mem_cons.mp hx with rfl | hx
      · simp [hsome]
      · refine build_pages_ok locOf es (n + 1) ?_ x hx
        rw [build_pages, hsome] at h
        exact h

/-- C6: the build loop of a winning strategy (one that completed, so
its flag is `true`) produces one descriptor per matched element, in
order; the descriptor built for the element at 0-based position `i` has
name equal to that element's text content trimmed of surrounding
whitespace — except "Page (i+1)" exactly when the raw text content is
the empty string — and carries index `i`. -/
theorem C6_descriptor_names (locOf : Nat → Element → Locator) (elems : List Element)
    (hwin : (build_pages locOf elems 0).2 = true) :
    (build_pages locOf elems 0).1.length = elems.length ∧
    ∀ (i : Nat) (hi : i < elems.length) (hb : i < (build_pages locOf elems 0).1.length),
      ((build_pages locOf elems 0).1.get ⟨i, hb⟩).name =
        (if (elems.get ⟨i, hi⟩).innerText.getD "" = "" then "Page " ++ toString (i + 1)
         else py_strip ((elems.get ⟨i, hi⟩).innerText.getD "")) ∧
      ((build_pages locOf elems 0).1.get ⟨i, hb⟩).index = i := by
  have hall := build_pages_ok locOf elems 0 hwin
  have hchar := build_pages_clean locOf elems 0 hall
  constructor
  · rw [hchar]
    simp [List.enumFrom_length]
  · intro i hi hb
    have hb2 : i < (((elems.enumFrom 0).map fun x =>
        ({ name := if x.2.innerText.getD "" = "" then "Page " ++ toString (x.1 + 1)
                   else py_strip (x.2.innerText.getD "")
           locator := locOf x.1 x.2
           index := x.1 } : PageInfo)).length) := by
      simpa [List.enumFrom_length] using hi
    have h1 : (build_pages locOf elems 0).1 =
        (elems.enumFrom 0).map fun x =>
          ({ name := if x.2.innerText.getD "" = "" then "Page " ++ toString (x.1 + 1)
                     else py_strip (x.2.innerText.getD "")
             locator := locOf x.1 x.2
             index := x.1 } : PageInfo) := by
      rw [hchar]
    constructor <;>
      · simp only [List.get_eq_getElem, h1, List.getElem_map, List.getElem_enumFrom]
        simp

def c6_elems : List Element :=
  [c1_el " A ", { innerText := some "", clickOk := true }]

/-- Witness for `C6_descriptor_names`: the second tab has empty text,
so its descriptor falls back to "Page 2"; the first is trimmed. -/
theorem C6_witness :
    ((build_pages (loc_of ".page-tab" false) c6_elems 0).1.get ⟨1, by decide⟩).name =
      "Page 2" := by
  have h := ((C6_descriptor_names (loc_of ".page-tab" false) c6_elems
      (by decide)).2 1 (by decide) (by decide)).1
  rw [h]
  decide

/-! ## C4 and C9: strategy priority in `detect_report_pages` -/

/-- A selector block "misses": its query raises, or it matches at most
one element (the block falls through without touching `pages`). -/
def selector_misses (dom : Dom) (sel : String) : Bool :=
  match dom.query sel with
  | none => true
  | some elems => elems.length ≤ 1

/-- A selector block is "clean": if it matches more than one element,
every `inner_text()` read succeeds (the build loop cannot raise
half-way). -/
def selector_clean (dom : Dom) (sel : String) : Bool :=
  match dom.query sel with
  | none => true
  | some elems => elems.length ≤ 1 || elems.all fun e => e.innerText.isSome

theorem try_selector_miss (dom : Dom) (sel : String) (b : Bool) (pages : List PageInfo)
    (h : selector_misses dom sel = true) :
    try_selector dom sel b pages = (pages, false) := by
  rcases hq : dom.query sel with _ | elems
  · simp [try_selector, hq]
  · simp only [selector_misses, hq] at h
    simp only [try_selector, hq]
    rw [if_neg (by simp at h; omega)]

theorem try_selector_win_nil (dom : Dom) (sel : String) (b : Bool)
    (elems : List Element) (hq : dom.query sel = some elems) (hlen : 1 < elems.length)
    (htext : ∀ e ∈ elems, e.innerText.isSome) :
    try_selector dom sel b [] = ((build_pages (loc_of sel b) elems 0).1, true) := by
  have hchar := build_pages_clean (loc_of sel b) elems 0 htext
  have hok : (build_pages (loc_of sel b) elems 0).2 = true := by rw [hchar]
  have hlen1 : (build_pages (loc_of sel b) elems 0).1.length = elems.length := by
    rw [hchar]
    simp [List.enumFrom_length]
  have hne : (build_pages (loc_of sel b) elems 0).1.isEmpty = false := by
    cases hb : (build_pages (loc_of sel b) elems 0).1 with
    | nil => rw [hb] at hlen1; simp at hlen1; omega
    | cons x xs => rfl
  simp only [try_selector, hq]
  rw [if_pos hlen, hok]
  simp [hne]

theorem detect_go_skip (dom : Dom) :
    ∀ (pre rest : List (String × Bool)) (pages : List PageInfo),
      (∀ sb ∈ pre, selector_misses dom sb.1 = true) →
      detect_go dom (pre ++ rest) pages = detect_go dom rest pages
  | [], _, _, _ => rfl
  | sb :: pre, rest, pages, h => by
    rw [List.cons_append, detect_go,
      try_selector_miss dom sb.1 sb.2 pages (h sb (by simp))]
    simp only [Bool.false_eq_true, if_false]
    exact detect_go_skip dom pre rest pages fun x hx => h x (List.mem_cons_of_mem _ hx)

theorem detect_go_win (dom : Dom) (sel : String) (b : Bool) (post : List (String × Bool))
    (elems : List Element) (hq : dom.query sel = some elems) (hlen : 1 < elems.length)
    (htext : ∀ e ∈ elems, e.innerText.isSome) :
    detect_go dom ((sel, b) :: post) [] = (build_pages (loc_of sel b) elems 0).1 := by
  rw [detect_go, try_selector_win_nil dom sel b elems hq hlen htext]
  simp

/-- C4 (amended): the strategies are tried in the fixed priority order
(tab-list selectors, then sidebar/page-navigator selectors, then the
generic page-class fallback); a selector whose query raises or matches
at most one element is silently skipped; the first selector that
matches more than one element wins — its descriptors, one per matched
element, are returned immediately without trying any lower-priority
selector — and if every selector misses the result is the empty list.
All of this holds provided no selector block raises *inside* its build
loop after matching more than one element (the `selector_clean`
hypothesis); without it, descriptors built before a mid-build
`inner_text()` exception leak into the shared accumulator and surface
in the final result (see the counterexample). -/
theorem C4_strategy_priority (dom : Dom)
    (hclean : ∀ sb ∈ strategy_selectors, selector_clean dom sb.1 = true) :
    ((∀ sb ∈ strategy_selectors, selector_misses dom sb.1 = true) →
        detect_report_pages dom = []) ∧
    (∀ (pre post : List (String × Bool)) (sel : String) (byHandle : Bool),
        strategy_selectors = pre ++ (sel, byHandle) :: post →
        (∀ sb ∈ pre, selector_misses dom sb.1 = true) →
        ∀ elems, dom.query sel = some elems → 1 < elems.length →
          detect_report_pages dom = (build_pages (loc_of sel byHandle) elems 0).1 ∧
          (detect_report_pages dom).length = elems.length) := by
  constructor
  · intro hmiss
    have h := detect_go_skip dom strategy_selectors [] [] hmiss
    rw [List.append_nil] at h
    exact h
  · intro pre post sel byHandle hdecomp hmiss elems hq hlen
    have htext : ∀ e ∈ elems, e.innerText.isSome := by
      have hcl := hclean (sel, byHandle) (by rw [hdecomp]; simp)
      simp only [selector_clean, hq] at hcl
      rcases Bool.or_eq_true_iff.mp hcl with h1 | h1
      · exfalso
        simp at h1
        omega
      · exact fun e he => List.all_eq_true.mp h1 e he
    have hchar := build_pages_clean (loc_of sel byHandle) elems 0 htext
    have hmain : detect_report_pages dom = (build_pages (loc_of sel byHandle) elems 0).1 := by
      rw [detect_report_pages, hdecomp, detect_go_skip dom pre _ [] hmiss,
        detect_go_win dom sel byHandle post elems hq hlen htext]
    refine ⟨hmain, ?_⟩
    rw [hmain, hchar]
    simp [List.enumFrom_length]

/-- The C4 witness DOM: the first two tab selectors match nothing and
the third (`.page-tab`) matches two clean tabs. -/
def c4w_dom : Dom :=
  { query := fun sel =>
      if sel = ".page-tab" then some [c1_el "A", c1_el "B"] else some [] }

/-- Witness for `C4_strategy_priority`: the `.page-tab` block is the
first matching one and its two descriptors are the whole result. -/
theorem C4_witness :
    detect_report_pages c4w_dom =
      (build_pages (loc_of ".page-tab" false) [c1_el "A", c1_el "B"] 0).1 ∧
    (detect_report_pages c4w_dom).length = 2 :=
  (C4_strategy_priority c4w_dom (by decide)).2
    [("[role=\"tablist\"] [role=\"tab\"]", false), ("[data-testid=\"page-tab\"]", false)]
    ((nav_selectors.map fun s => (s, false)) ++ [(generic_page_selector, true)])
    ".page-tab" false (by decide) (by decide) [c1_el "A", c1_el "B"] rfl (by decide)

/-- The C4 counterexample DOM: the tab-list selector matches two
elements but the second element's `inner_text()` raises; the first
sidebar selector matches two clean buttons. -/
def c4_cex_dom : Dom :=
  { query := fun sel =>
      if sel = "[role=\"tablist\"] [role=\"tab\"]" then
        some [c1_el "Alpha", { innerText := none, clickOk := true }]
      else if sel = "nav [role=\"button\"]" then some [c1_el "B1", c1_el "B2"]
      else some [] }

/-- C4 counterexample: on `c4_cex_dom` the winning strategy is the
sidebar selector with two matched elements, but the returned list has
three descriptors and mixes two selector families — the tab-list block
threw after building one descriptor and that descriptor leaked into the
result, so "the first strategy whose selector matches more than one
element ... is returned immediately" and "a strategy that throws ... is
silently skipped" are both false as stated. -/
theorem C4_counterexample :
    (c4_cex_dom.query "nav [role=\"button\"]").map List.length = some 2 ∧
    (detect_report_pages c4_cex_dom).length = 3 ∧
    (detect_report_pages c4_cex_dom).map PageInfo.locator =
      [Locator.selector "[role=\"tablist\"] [role=\"tab\"]" 0,
       Locator.selector "nav [role=\"button\"]" 0,
       Locator.selector "nav [role=\"button\"]" 1] := by decide

/-- Case analysis for a whole run of `detect_go` from the empty
accumulator, under cleanliness: either every block misses and the
result is empty, or some block wins and the result is exactly its
build. -/
theorem detect_go_cases (dom : Dom) :
    ∀ l : List (String × Bool),
      (∀ sb ∈ l, selector_clean dom sb.1 = true) →
      detect_go dom l [] = [] ∨
      ∃ (sel : String) (b : Bool) (elems : List Element),
        dom.query sel = some elems ∧ 1 < elems.length ∧
        (∀ e ∈ elems, e.innerText.isSome) ∧
        detect_go dom l [] = (build_pages (loc_of sel b) elems 0).1
  | [], _ => Or.inl rfl
  | sb :: rest, h => by
    by_cases hm : selector_misses dom sb.1 = true
    · rw [show sb :: rest = [sb] ++ rest from rfl,
        detect_go_skip dom [sb] rest [] (by simpa using hm)]
      exact detect_go_cases dom rest fun x hx => h x (List.mem_cons_of_mem _ hx)
    · rcases hq : dom.query sb.1 with _ | elems
      · exact absurd (by simp [selector_misses, hq]) hm
      · have hlen : 1 < elems.length := by
          simp only [selector_misses, hq] at hm
          simp at hm
          omega
        have htext : ∀ e ∈ elems, e.innerText.isSome := by
          have hcl := h sb (by simp)
          simp only [selector_clean, hq] at hcl
          rcases Bool.or_eq_true_iff.mp hcl with h1 | h1
          · exfalso
            simp at h1
            omega
          · exact fun e he => List.all_eq_true.mp h1 e he
        right
        exact ⟨sb.1, sb.2, elems, hq, hlen, htext, by
          rcases sb with ⟨sel, b⟩
          exact detect_go_win dom sel b rest elems hq hlen htext⟩

/-- C9 (amended): under the same cleanliness hypothesis as C4 (no
selector block raises inside its build loop), `detect_report_pages`
never returns exactly one descriptor: its result is either empty or has
at least two descriptors, all produced by one single strategy (one
shared selector string, or one batch of element handles), with index
fields running contiguously from 0 to k-1 in DOM order.  Without the
hypothesis, a block that raises mid-build can leak a single descriptor
into the result (see the counterexample). -/
theorem C9_no_singleton (dom : Dom)
    (hclean : ∀ sb ∈ strategy_selectors, selector_clean dom sb.1 = true) :
    detect_report_pages dom = [] ∨
    (1 < (detect_report_pages dom).length ∧
      ((∃ sel : String, ∀ info ∈ detect_report_pages dom,
          ∃ i : Nat, info.locator = Locator.selector sel i) ∨
        (∀ info ∈ detect_report_pages dom, ∃ e : Element,
          info.locator = Locator.element e)) ∧
      (detect_report_pages dom).map PageInfo.index =
        List.range (detect_report_pages dom).length) := by
  rcases detect_go_cases dom strategy_selectors hclean with h | ⟨sel, b, elems, hq, hlen, htext, h⟩
  · exact Or.inl h
  · right
    have hdet : detect_report_pages dom = (build_pages (loc_of sel b) elems 0).1 := h
    have hchar := build_pages_clean (loc_of sel b) elems 0 htext
    have hlist : detect_report_pages dom =
        (elems.enumFrom 0).map fun x =>
          ({ name := if x.2.innerText.getD "" = "" then "Page " ++ toString (x.1 + 1)
                     else py_strip (x.2.innerText.getD "")
             locator := loc_of sel b x.1 x.2
             index := x.1 } : PageInfo) := by
      rw [hdet, hchar]
    have hlength : (detect_report_pages dom).length = elems.length := by
      rw [hlist]
      simp [List.enumFrom_length]
    refine ⟨by omega, ?_, ?_⟩
    · cases hb : b
      · left
        refine ⟨sel, fun info hinfo => ?_⟩
        rw [hlist] at hinfo
        rcases List.mem_map.mp hinfo with ⟨x, _, rfl⟩
        exact ⟨x.1, by simp [loc_of, hb]⟩
      · right
        intro info hinfo
        rw [hlist] at hinfo
        rcases List.mem_map.mp hinfo with ⟨x, _, rfl⟩
        exact ⟨x.2, by simp [loc_of, hb]⟩
    · rw [hlength, hlist, List.map_map]
      have hf : (PageInfo.index ∘ fun x : Nat × Element =>
          ({ name := if x.2.innerText.getD "" = "" then "Page " ++ toString (x.1 + 1)
                     else py_strip (x.2.innerText.getD "")
             locator := loc_of sel b x.1 x.2
             index := x.1 } : PageInfo)) = Prod.fst := rfl
      rw [hf, List.enumFrom_map_fst, List.range_eq_range']

/-- The C9 witness DOM: a clean two-tab report. -/
def c9w_dom : Dom :=
  { query := fun sel =>
      if sel = "[role=\"tablist\"] [role=\"tab\"]" then some [c1_el "A", c1_el "B"]
      else some [] }

/-- Witness for `C9_no_singleton` at a concrete clean DOM. -/
theorem C9_witness :
    detect_report_pages c9w_dom = [] ∨
    (1 < (detect_report_pages c9w_dom).length ∧
      ((∃ sel : String, ∀ info ∈ detect_report_pages c9w_dom,
          ∃ i : Nat, info.locator = Locator.selector sel i) ∨
        (∀ info ∈ detect_report_pages c9w_dom, ∃ e : Element,
          info.locator = Locator.element e)) ∧
      (detect_report_pages c9w_dom).map PageInfo.index =
        List.range (detect_report_pages c9w_dom).length) :=
  C9_no_singleton c9w_dom (by decide)

/-- The C9 counterexample DOM: the tab-list selector matches two
elements, the second element's `inner_text()` raises, and every other
selector matches nothing. -/
def c9_cex_dom : Dom :=
  { query := fun sel =>
      if sel = "[role=\"tablist\"] [role=\"tab\"]" then
        some [c1_el "Alpha", { innerText := none, clickOk := true }]
      else some [] }

/-- C9 counterexample: the claim says the result is never a singleton,
but on `c9_cex_dom` the tab-list block builds one descriptor, raises on
the second element, every later block misses, and the function's final
`return pages` returns exactly that one leaked descriptor. -/
theorem C9_counterexample :
    (detect_report_pages c9_cex_dom).length = 1 := by decide

end LookerDescriber
